import Mathlib

/-!
# Verification of the PetClinic crash generator / reverter

Shallow embedding of `petclinic_crash_generation/crash_generator.py` and
`petclinic_crash_generation/crash_reverter.py`.

The environment (filesystem, permissions, state file, processes, iptables
OUTPUT chain, service manager, health probes) is modelled as an explicit
`World` record.  The generator's in-memory session state (`self.state`) is the
`GenState` record; the persisted state file is a distinguished `World` field,
since its path (`/tmp/crash_generator_state.json`) is distinct from every path
the tool mutates through filesystem operations.  Each Python method becomes a
Lean function on these records; generator methods additionally emit a trace of
events (`GEvent`) so that crash points (prefixes of the trace) can be analysed.
Directories are not modelled: the filesystem is a flat map from absolute path
to file content.  Shell commands are recorded verbatim; their success is
modelled by the world (`cmdFails` for generic commands, dedicated probe fields
for the health checks, rule presence for `iptables -D`).
-/

/-! ## Association-list helpers (Python dicts and the flat filesystem) -/

def lookupA {α : Type} : List (String × α) → String → Option α
  | [], _ => none
  | (k', v) :: m, k => if k' = k then some v else lookupA m k

def setA {α : Type} : List (String × α) → String → α → List (String × α)
  | [], k, v => [(k, v)]
  | (k', v') :: m, k, v => if k' = k then (k, v) :: m else (k', v') :: setA m k v

def removeA {α : Type} : List (String × α) → String → List (String × α)
  | [], _ => []
  | (k', v') :: m, k => if k' = k then removeA m k else (k', v') :: removeA m k

def removeFirst : List String → String → List String
  | [], _ => []
  | x :: xs, r => if x = r then xs else x :: removeFirst xs r

/-- `s.startswith(pat)` (kernel-reducible form). -/
def strStarts (s pat : String) : Bool := pat.data.isPrefixOf s.data

/-- `s.endswith(pat)` (kernel-reducible form). -/
def strEnds (s pat : String) : Bool := pat.data.isSuffixOf s.data

/-- Python `str.replace`: replace every non-overlapping occurrence of `pat`,
scanning left to right.  Only called with nonempty patterns. -/
def replaceAllChars (pat repl : List Char) : List Char → List Char
  | [] => []
  | c :: cs =>
      if pat.isPrefixOf (c :: cs) ∧ pat ≠ [] then
        repl ++ replaceAllChars pat repl ((c :: cs).drop pat.length)
      else c :: replaceAllChars pat repl cs
termination_by l => l.length
decreasing_by
  · rename_i hcond
    simp only [List.length_drop, List.length_cons]
    have hne : pat.length ≠ 0 := by
      intro h0
      exact hcond.2 (List.eq_nil_of_length_eq_zero h0)
    omega
  · simp

def strReplace (s pat repl : String) : String :=
  String.mk (replaceAllChars pat.data repl.data s.data)

/-! ## Path constants from both scripts -/

def base_dir : String := "/home/ubuntu/spring-petclinic"

def jar_path : String := base_dir ++ "/target/spring-petclinic-3.5.0-SNAPSHOT.jar"

def service_file : String := "/etc/systemd/system/petclinic.service"

def backup_dir : String := "/tmp/petclinic_backup"

def state_file_path : String := "/tmp/crash_generator_state.json"

def props_file : String := base_dir ++ "/src/main/resources/application.properties"

def large_file : String := "/tmp/crash_generator_large_file"

def backup_jar : String := backup_dir ++ "/spring-petclinic-3.5.0-SNAPSHOT.jar"

def backup_service : String := backup_dir ++ "/petclinic.service"

def backup_props : String := backup_dir ++ "/application.properties"

def moved_jar : String := backup_dir ++ "/moved_jar.jar"

/-! ## The generator's session state (`self.state` dict of `CrashGenerator`) -/

structure GenState where
  active_scenario : Option Nat
  timestamp : Option String
  backup_created : Bool
  processes_started : List (String × Nat)
  files_modified : List String
  original_permissions : List (String × String)
  iptables_rules : List String
  service_modified : Bool
deriving DecidableEq, Repr

def initialGenState : GenState :=
  { active_scenario := none
    timestamp := none
    backup_created := false
    processes_started := []
    files_modified := []
    original_permissions := []
    iptables_rules := []
    service_modified := false }

/-- Content of the persisted state file `/tmp/crash_generator_state.json`:
absent, present but not valid JSON, or a valid full record as written by
`save_state` (which always dumps all eight keys). -/
inductive StateFileContent where
  | absent : StateFileContent
  | malformed : StateFileContent
  | validFull : GenState → StateFileContent
deriving DecidableEq, Repr

/-! ## The environment -/

structure World where
  fs : List (String × String) := []
  perms : List (String × Nat) := []
  stateFile : StateFileContent := .absent
  serviceRunning : Bool := false
  procs : List Nat := []
  port8080Pids : List Nat := []
  iptables : List String := []
  nextPid : Nat := 1000
  now : String := ""
  freeTmpBytes : Nat := 0
  cmdFails : List String := []
  svcActive : Bool := false
  portListening : Bool := false
  httpOk : Bool := false
  cmdLog : List String := []
deriving DecidableEq, Repr

/-- `shutil.copy2 src dst`: copy content and metadata (permission bits).
Callers in the scripts guard with existence checks, so the missing-source
branch is a no-op here. -/
def copy2 (w : World) (src dst : String) : World :=
  match lookupA w.fs src with
  | none => w
  | some content =>
      let w1 := { w with fs := setA w.fs dst content }
      match lookupA w1.perms src with
      | none => w1
      | some m => { w1 with perms := setA w1.perms dst m }

/-- `shutil.move src dst` (used by scenario 3 and its revert). -/
def moveFile (w : World) (src dst : String) : World :=
  match lookupA w.fs src with
  | none => w
  | some content =>
      let w1 := { w with fs := setA (removeA w.fs src) dst content }
      match lookupA w1.perms src with
      | none => w1
      | some m => { w1 with perms := setA (removeA w1.perms src) dst m }

/-! ## Generator events

Each mutating sub-step of a scenario, each shell command, each log line and
each `save_state` call is one trace event; crash points are prefixes of the
trace. -/

inductive GEvent where
  | logMsg : String → GEvent
  | cmd : String → GEvent
  | chmodEv : String → Nat → GEvent
  | moveEv : String → String → GEvent
  | appendEv : String → String → GEvent
  | writeEv : String → String → GEvent
  | copyEv : String → String → GEvent
  | spawnEv : String → Nat → GEvent
  | iptablesAddEv : String → GEvent
  | saveStateEv : GenState → GEvent
deriving DecidableEq, Repr

/-- The mutating sub-steps named by the spec's Ledger invariant: file edits
(write/append), moves, permission changes, spawned processes and firewall
rules.  Backup copies, log lines, service commands and `save_state` itself
are not ledger-recorded mutations. -/
def isLedgerMutation : GEvent → Bool
  | .chmodEv _ _ => true
  | .moveEv _ _ => true
  | .appendEv _ _ => true
  | .writeEv _ _ => true
  | .spawnEv _ _ => true
  | .iptablesAddEv _ => true
  | _ => false

/-- Whether a session state records the given mutation, matching how each
scenario records it: permission changes in `original_permissions`, writes and
appends in `files_modified`, moves as `moved:src:dst` strings, spawned
processes in `processes_started`, firewall rules in `iptables_rules`. -/
def recordsMutation (s : GenState) : GEvent → Bool
  | .chmodEv p _ => s.original_permissions.any (fun q => q.1 = p)
  | .moveEv a b => s.files_modified.any (fun q => q = "moved:" ++ a ++ ":" ++ b)
  | .appendEv p _ => s.files_modified.any (fun q => q = p)
  | .writeEv p _ => s.files_modified.any (fun q => q = p)
  | .spawnEv _ pid => s.processes_started.any (fun q => q.2 = pid)
  | .iptablesAddEv r => s.iptables_rules.any (fun q => q = r)
  | _ => true

/-- State of the durable state file after replaying a trace prefix from a
given initial file content: the last `save_state` wins. -/
def persistedState (init : StateFileContent) (tr : List GEvent) : StateFileContent :=
  tr.foldl (fun acc e => match e with | .saveStateEv s => .validFull s | _ => acc) init

def recordsMutationSF : StateFileContent → GEvent → Bool
  | .validFull s, e => recordsMutation s e
  | _, _ => false

/-- Every ledger mutation in the trace is recorded in the given state. -/
def allRecorded (s : GenState) (tr : List GEvent) : Bool :=
  (tr.filter isLedgerMutation).all (recordsMutation s)

/-! ## CrashGenerator methods -/

/-- The mutable context of a `CrashGenerator` run: in-memory `self.state`,
the environment, and the event trace so far. -/
structure GenCtx where
  st : GenState
  w : World
  tr : List GEvent
deriving Repr

def emit (c : GenCtx) (e : GEvent) : GenCtx :=
  { c with tr := c.tr ++ [e] }

def logG (c : GenCtx) (s : String) : GenCtx :=
  emit c (.logMsg s)

/-- `save_state`: `json.dump(self.state, f)` over the state file path. -/
def save_state (c : GenCtx) : GenCtx :=
  { c with
    w := { c.w with stateFile := .validFull c.st }
    tr := c.tr ++ [.saveStateEv c.st] }

/-- `load_state`: replace the in-memory defaults with the persisted record if
present and parseable; a parse failure is swallowed (only a warning is
logged) and the defaults are kept.  A valid file written by `save_state`
always carries all eight keys, so `dict.update` replaces every field. -/
def load_state (st : GenState) (sf : StateFileContent) : GenState :=
  match sf with
  | .absent => st
  | .malformed => st
  | .validFull s => s

/-- `create_backup`: copy JAR, service file and application.properties (each
if present) into the backup directory, then set `backup_created` and save
state.  No-op if `backup_created` is already true. -/
def create_backup (c : GenCtx) : GenCtx :=
  if c.st.backup_created then c
  else
    let c := logG c "Creating backup of original files..."
    let c :=
      match lookupA c.w.fs jar_path with
      | some _ =>
          let c := { c with w := copy2 c.w jar_path backup_jar }
          let c := emit c (.copyEv jar_path backup_jar)
          logG c ("Backed up JAR to " ++ backup_dir)
      | none => c
    let c :=
      match lookupA c.w.fs service_file with
      | some _ =>
          let c := { c with w := copy2 c.w service_file backup_service }
          let c := emit c (.copyEv service_file backup_service)
          logG c ("Backed up service file to " ++ backup_dir)
      | none => c
    let c :=
      match lookupA c.w.fs props_file with
      | some _ =>
          let c := { c with w := copy2 c.w props_file backup_props }
          let c := emit c (.copyEv props_file backup_props)
          logG c ("Backed up application.properties to " ++ backup_dir)
      | none => c
    let c := { c with st := { c.st with backup_created := true } }
    save_state c

def stop_cmd : String := "sudo systemctl stop petclinic.service"

def start_cmd : String := "sudo systemctl start petclinic.service"

def stop_service (c : GenCtx) : GenCtx :=
  let c := logG c "Stopping petclinic service..."
  let c := emit c (.cmd stop_cmd)
  { c with w := { c.w with serviceRunning := false } }

def start_service (c : GenCtx) : GenCtx × Bool :=
  let c := logG c "Starting petclinic service..."
  let ok := ¬ c.w.cmdFails.contains start_cmd
  let c := emit c (.cmd start_cmd)
  let c := { c with w := { c.w with serviceRunning := ok } }
  let c := if ok then c else logG c "Service failed to start: "
  (c, ok)

/-- `oct(stat_info.st_mode)[-3:]`: the three low octal digits of the mode. -/
def octDigit (n : Nat) : Char := Char.ofNat (48 + n % 8)

def octal3 (m : Nat) : String :=
  String.mk [octDigit (m / 64 % 8), octDigit (m / 8 % 8), octDigit (m % 8)]

/-! ## The eight crash scenarios

Each returns the updated context and the scenario's Python return value.
Patterns not expressible in the flat model are noted inline. -/

/-- Scenario 1: port conflict.  The in-process daemon HTTP-server thread
leaves no external record and is represented only by its spawn of the `nc`
listener (the only tracked process, as in the source). -/
def scenario_1_port_conflict (c : GenCtx) : GenCtx × Bool :=
  let c := logG c "=== Scenario 1: Port Conflict ==="
  let pid := c.w.nextPid
  let c := { c with w := { c.w with
    nextPid := c.w.nextPid + 1
    procs := c.w.procs ++ [pid]
    port8080Pids := c.w.port8080Pids ++ [pid] } }
  let c := emit c (.spawnEv "nc" pid)
  let c := { c with st := { c.st with
    processes_started := c.st.processes_started ++ [("nc", pid)] } }
  let (c, _) := start_service c
  (c, true)

def scenario_2_permission_error (c : GenCtx) : GenCtx × Bool :=
  let c := logG c "=== Scenario 2: Permission Error ==="
  if (lookupA c.w.fs jar_path).isNone then
    (logG c "JAR file not found, skipping permission scenario", false)
  else
    let mode := (lookupA c.w.perms jar_path).getD 0
    let c := { c with st := { c.st with
      original_permissions := setA c.st.original_permissions jar_path (octal3 mode) } }
    let c := { c with w := { c.w with perms := setA c.w.perms jar_path 0o644 } }
    let c := emit c (.chmodEv jar_path 0o644)
    let c := { c with st := { c.st with
      files_modified := c.st.files_modified ++ [jar_path] } }
    let c := logG c ("Changed permissions of " ++ jar_path ++ " to 644")
    let (c, _) := start_service c
    (c, true)

def scenario_3_missing_file (c : GenCtx) : GenCtx × Bool :=
  let c := logG c "=== Scenario 3: Missing File ==="
  if (lookupA c.w.fs jar_path).isNone then
    (logG c "JAR file not found, skipping missing file scenario", false)
  else
    let c := { c with w := moveFile c.w jar_path moved_jar }
    let c := emit c (.moveEv jar_path moved_jar)
    let c := { c with st := { c.st with
      files_modified := c.st.files_modified ++ ["moved:" ++ jar_path ++ ":" ++ moved_jar] } }
    let c := logG c ("Moved JAR from " ++ jar_path ++ " to " ++ moved_jar)
    let (c, _) := start_service c
    (c, true)

def scenario_4_memory_limit (c : GenCtx) : GenCtx × Bool :=
  let c := logG c "=== Scenario 4: Memory Limit ==="
  if (lookupA c.w.fs service_file).isNone then
    (logG c "Service file not found, skipping memory limit scenario", false)
  else
    let content := (lookupA c.w.fs service_file).getD ""
    let new_content := strReplace content "ExecStart=/usr/bin/java -jar"
      "ExecStart=/usr/bin/java -Xmx32m -Xms16m -jar"
    let c := { c with w := { c.w with fs := setA c.w.fs service_file new_content } }
    let c := emit c (.writeEv service_file new_content)
    let c := { c with st := { c.st with
      service_modified := true
      files_modified := c.st.files_modified ++ [service_file] } }
    let c := emit c (.cmd "sudo systemctl daemon-reload")
    let c := logG c "Modified service file to use 32MB max memory"
    let (c, _) := start_service c
    (c, true)

def invalid_config : String :=
  "\n# Invalid configuration added by crash generator\nserver.port=invalid_port_number\nspring.datasource.url=jdbc:invalid://localhost:3306/invalid\nspring.datasource.username=\nspring.datasource.password=\nlogging.level.root=INVALID_LEVEL\n"

/-- Scenario 5: invalid configuration.  There is no existence check on the
target: `open(props_file, "a")` creates the file when it is absent (the
parent directory is assumed present; directories are not modelled). -/
def scenario_5_invalid_config (c : GenCtx) : GenCtx × Bool :=
  let c := logG c "=== Scenario 5: Invalid Configuration ==="
  let old := (lookupA c.w.fs props_file).getD ""
  let c := { c with w := { c.w with fs := setA c.w.fs props_file (old ++ invalid_config) } }
  let c := emit c (.appendEv props_file invalid_config)
  let c := { c with st := { c.st with
    files_modified := c.st.files_modified ++ [props_file] } }
  let c := logG c ("Added invalid configuration to " ++ props_file)
  let (c, _) := start_service c
  (c, true)

def iptables_rule_80 : String := "sudo iptables -A OUTPUT -p tcp --dport 80 -j DROP"

def iptables_rule_443 : String := "sudo iptables -A OUTPUT -p tcp --dport 443 -j DROP"

def iptables_rule_53 : String := "sudo iptables -A OUTPUT -p tcp --dport 53 -j DROP"

def applyIptablesRule (c : GenCtx) (rule : String) : GenCtx :=
  let ok := ¬ c.w.cmdFails.contains rule
  let c := emit c (.cmd rule)
  if ok then
    let c := { c with w := { c.w with iptables := c.w.iptables ++ [rule] } }
    let c := emit c (.iptablesAddEv rule)
    let c := { c with st := { c.st with
      iptables_rules := c.st.iptables_rules ++ [rule] } }
    logG c ("Applied iptables rule: " ++ rule)
  else c

def scenario_6_network_issues (c : GenCtx) : GenCtx × Bool :=
  let c := logG c "=== Scenario 6: Network Issues ==="
  let c := applyIptablesRule c iptables_rule_80
  let c := applyIptablesRule c iptables_rule_443
  let c := applyIptablesRule c iptables_rule_53
  let (c, _) := start_service c
  (c, true)

def scenario_7_user_permission (c : GenCtx) : GenCtx × Bool :=
  let c := logG c "=== Scenario 7: User Permission Issues ==="
  if (lookupA c.w.fs service_file).isNone then
    (logG c "Service file not found, skipping user permission scenario", false)
  else
    let content := (lookupA c.w.fs service_file).getD ""
    let new_content := strReplace content "User=ubuntu" "User=nobody"
    let c := { c with w := { c.w with fs := setA c.w.fs service_file new_content } }
    let c := emit c (.writeEv service_file new_content)
    let c := { c with st := { c.st with
      service_modified := true
      files_modified := c.st.files_modified ++ [service_file] } }
    let c := emit c (.cmd "sudo systemctl daemon-reload")
    let c := logG c "Changed service user to 'nobody'"
    let (c, _) := start_service c
    (c, true)

/-- Scenario 8: disk space.  `int(free_bytes * 0.8)` is modelled as exact
rational truncation (`free * 8 / 10`); float rounding is out of scope as no
claim depends on the exact size.  The `statvfs`/write failure branch of the
source's `try` is not reachable in the model (writes always succeed). -/
def scenario_8_disk_space (c : GenCtx) : GenCtx × Bool :=
  let c := logG c "=== Scenario 8: Disk Space Issues ==="
  let file_size := c.w.freeTmpBytes * 8 / 10
  let c := logG c ("Creating " ++ toString file_size ++ " byte file to simulate disk space issue")
  let content := String.mk (List.replicate file_size '0')
  let c := { c with w := { c.w with fs := setA c.w.fs large_file content } }
  let c := emit c (.writeEv large_file content)
  let c := { c with st := { c.st with
    files_modified := c.st.files_modified ++ [large_file] } }
  let (c, _) := start_service c
  (c, true)

structure RunResult where
  st : GenState
  w : World
  tr : List GEvent
  ok : Bool
deriving Repr

/-- The `scenarios` dispatch dict of `run_scenario`, restricted to a valid
scenario number. -/
def scenarioFn (scenario_num : Nat) (c : GenCtx) : GenCtx × Bool :=
  if scenario_num = 1 then scenario_1_port_conflict c
  else if scenario_num = 2 then scenario_2_permission_error c
  else if scenario_num = 3 then scenario_3_missing_file c
  else if scenario_num = 4 then scenario_4_memory_limit c
  else if scenario_num = 5 then scenario_5_invalid_config c
  else if scenario_num = 6 then scenario_6_network_issues c
  else if scenario_num = 7 then scenario_7_user_permission c
  else scenario_8_disk_space c

/-- The part of `run_scenario` that precedes the scenario body on the valid
path: backup, stop the service, set `active_scenario` and `timestamp`. -/
def afterPrelude (scenario_num : Nat) (st : GenState) (w : World) : GenCtx :=
  let c : GenCtx := ⟨st, w, []⟩
  let c := create_backup c
  let c := stop_service c
  { c with st := { c.st with
    active_scenario := some scenario_num
    timestamp := some c.w.now } }

/-- `run_scenario`: backup, stop the service, dispatch.  The single
`save_state` for the scenario's mutations happens after the scenario
procedure returns; the `except` branch (return False without saving) is
unreachable here because the modelled scenario bodies are total. -/
def run_scenario (scenario_num : Nat) (st : GenState) (w : World) : RunResult :=
  let c : GenCtx := ⟨st, w, []⟩
  let c := create_backup c
  let c := stop_service c
  if scenario_num < 1 ∨ 8 < scenario_num then
    let c := logG c ("Invalid scenario number: " ++ toString scenario_num)
    ⟨c.st, c.w, c.tr, false⟩
  else
    let p := scenarioFn scenario_num (afterPrelude scenario_num st w)
    let c := save_state p.1
    ⟨c.st, c.w, c.tr, p.2⟩

/-- `main` of crash_generator.py.  The function never calls `sys.exit` and
returns `None` on every path, so the process exit code is 0 in every run that
does not die of an unexpected uncaught exception; success or failure of the
scenario is only logged.  `if args.scenario:` is Python truthiness, so an
explicit argument of 0 falls through to the usage branch. -/
def crashGeneratorMain (listFlag statusFlag : Bool) (scenarioArg : Option Int) (w : World) :
    Nat × World × List GEvent :=
  let st0 := load_state initialGenState w.stateFile
  if listFlag then (0, w, [])
  else if statusFlag then (0, w, [])
  else
    match scenarioArg with
    | none => (0, w, [])
    | some n =>
        if n = 0 then (0, w, [])
        else if 1 ≤ n ∧ n ≤ 8 then
          let r := run_scenario n.toNat st0 w
          (0, r.w, r.tr)
        else (0, w, [GEvent.logMsg "Invalid scenario number. Use --list to see available scenarios"])

/-! ## CrashReverter: line machinery for `clean_application_properties`

Python's `f.readlines()` splits after each newline, keeping the newline in the
line; `f.writelines(lines)` concatenates without separators.  The cleanup is
modelled on `List Char` so its byte-level behaviour is exact. -/

def readLinesGo (acc : List Char) : List Char → List (List Char)
  | [] => if acc.isEmpty then [] else [acc.reverse]
  | ch :: cs =>
      if ch = '\n' then (acc.reverse ++ ['\n']) :: readLinesGo [] cs
      else readLinesGo (ch :: acc) cs

def pyReadLines (cs : List Char) : List (List Char) := readLinesGo [] cs

/-- Python `str.strip() == ""`: every character is whitespace. -/
def isPySpace (c : Char) : Bool :=
  c = ' ' ∨ c = '\t' ∨ c = '\n' ∨ c = '\r' ∨ c = Char.ofNat 11 ∨ c = Char.ofNat 12

def isBlankLine (l : List Char) : Bool := l.all isPySpace

/-- Python's `needle in line` substring test. -/
def isSegOf (pat : List Char) : List Char → Bool
  | [] => pat.isEmpty
  | c :: cs => pat.isPrefixOf (c :: cs) || isSegOf pat cs

def markerChars : List Char :=
  "# Invalid configuration added by crash generator".toList

def injected1 : List Char := "server.port=invalid".toList

def injected2 : List Char := "spring.datasource.url=jdbc:invalid".toList

def injected3 : List Char := "spring.datasource.username=".toList

def injected4 : List Char := "spring.datasource.password=".toList

def injected5 : List Char := "logging.level.root=INVALID".toList

def startsAnyInjected (l : List Char) : Bool :=
  injected1.isPrefixOf l || injected2.isPrefixOf l || injected3.isPrefixOf l ||
  injected4.isPrefixOf l || injected5.isPrefixOf l

/-- The line filter of `clean_application_properties`.  The Boolean is
`skip_section`.  A line inside the skip section that starts with one of the
five injected keys matches no branch of the Python `if`/`elif` chain: it is
dropped and `skip_section` stays true (the final case below). -/
def cleanLines : Bool → List (List Char) → List (List Char)
  | _, [] => []
  | skip, l :: ls =>
      if isSegOf markerChars l then cleanLines true ls
      else if skip && (isBlankLine l || ['#'].isPrefixOf l) then cleanLines skip ls
      else if skip && !(startsAnyInjected l) then l :: cleanLines false ls
      else if !skip then l :: cleanLines skip ls
      else cleanLines skip ls

def cleanPropsChars (cs : List Char) : List Char :=
  (cleanLines false (pyReadLines cs)).flatten

def clean_application_properties (w : World) (p : String) : World :=
  match lookupA w.fs p with
  | none => w
  | some content => { w with fs := setA w.fs p (String.mk (cleanPropsChars content.data)) }

/-! ## CrashReverter steps -/

/-- The effective state a `CrashReverter` works with: `{}` (every `.get`
returning its default) when the file is absent or unparseable, the full
record otherwise. -/
def reverterLoad (sf : StateFileContent) : GenState :=
  match sf with
  | .validFull s => s
  | _ => initialGenState

def runCmdR (w : World) (c : String) : World × Bool :=
  ({ w with cmdLog := w.cmdLog ++ [c] }, ¬ w.cmdFails.contains c)

def stop_serviceR (w : World) : World :=
  let p := runCmdR w stop_cmd
  { p.1 with serviceRunning := false }

def start_serviceR (w : World) : World × Bool :=
  let p := runCmdR w start_cmd
  ({ p.1 with serviceRunning := p.2 }, p.2)

/-- SIGTERM then SIGKILL one recorded `(name, pid)` pair: the process, if
alive, is gone (plain `os.kill`, no shell command is logged). -/
def killRecordedStep (w : World) (pr : String × Nat) : World :=
  { w with procs := w.procs.filter (fun q => decide (q ≠ pr.2)) }

/-- `sudo kill -9 pid` for one pid found by the `lsof` port sweep. -/
def killPortStep (w : World) (pid : Nat) : World :=
  let w := (runCmdR w ("sudo kill -9 " ++ toString pid)).1
  { w with procs := w.procs.filter (fun q => decide (q ≠ pid)) }

/-- `kill_processes`: SIGTERM/SIGKILL each recorded pid (plain `os.kill`, no
shell command), then sweep any pid still bound to port 8080 via
`lsof`/`kill -9`, then the two `pkill` pattern kills (their effect on
untracked processes is not representable in the model and is kept as the
issued commands). -/
def kill_processes (st : GenState) (w : World) : World :=
  let w := st.processes_started.foldl killRecordedStep w
  let w := (runCmdR w "sudo lsof -ti:8080").1
  let w := w.port8080Pids.foldl killPortStep w
  let w := { w with port8080Pids := [] }
  let w := (runCmdR w "sudo pkill -f \x27nc -l 8080\x27").1
  let w := (runCmdR w "sudo pkill -f \x27python.*http.server\x27").1
  w

/-- `os.path.basename`: the characters after the last `/`. -/
def basename (p : String) : String :=
  String.mk (p.data.foldl (fun acc c => if c = '/' then [] else acc ++ [c]) [])

def splitOnFirstColon : List Char → Option (List Char × List Char)
  | [] => none
  | c :: rest =>
      if c = ':' then some ([], rest)
      else
        match splitOnFirstColon rest with
        | none => none
        | some (a, b) => some (c :: a, b)

/-- `file_entry.split(":", 2)` on a `moved:...` entry: the text after
`moved:` is split at its first colon into original and moved path.  An entry
with no second colon would raise a ValueError in the source; it cannot be
produced by the generator and is a no-op marker here. -/
def splitMoved (e : String) : Option (String × String) :=
  match splitOnFirstColon (e.data.drop 6) with
  | none => none
  | some (a, b) => some (String.mk a, String.mk b)

def restoreFileEntry (w : World) (entry : String) : World :=
  if strStarts entry "moved:" then
    match splitMoved entry with
    | none => w
    | some (original_path, moved_path) =>
        if (lookupA w.fs moved_path).isSome then moveFile w moved_path original_path
        else w
  else
    let backup_path := backup_dir ++ "/" ++ basename entry
    if (lookupA w.fs backup_path).isSome then copy2 w backup_path entry
    else
      if strEnds entry "application.properties" then clean_application_properties w entry
      else if strStarts entry "/tmp/crash_generator_large_file" then
        if (lookupA w.fs entry).isSome then { w with fs := removeA w.fs entry } else w
      else w

def restore_files (st : GenState) (w : World) : World :=
  st.files_modified.foldl restoreFileEntry w

/-- `int(s, 8)` restricted to the non-negative digit strings the generator
writes; any other string raises ValueError in the source, which the revert
loop catches and skips. -/
def parseOctGo : List Char → Nat → Option Nat
  | [], acc => some acc
  | c :: cs, acc =>
      if '0' ≤ c ∧ c ≤ '7' then parseOctGo cs (acc * 8 + (c.toNat - 48)) else none

def parseOct (s : String) : Option Nat :=
  if s.data.isEmpty then none else parseOctGo s.data 0

/-- `os.chmod` on a missing path raises; the loop catches and logs, so the
permission entry is skipped. -/
def restorePermEntry (w : World) (pr : String × String) : World :=
  match parseOct pr.2 with
  | none => w
  | some m =>
      if (lookupA w.fs pr.1).isSome then { w with perms := setA w.perms pr.1 m } else w

def restore_permissions (st : GenState) (w : World) : World :=
  st.original_permissions.foldl restorePermEntry w

def flush_output_cmd : String := "sudo iptables -F OUTPUT"

def deleteRuleCmd (rule : String) : String := strReplace rule "-A OUTPUT" "-D OUTPUT"

/-- One iteration of the rule-removal loop: the delete command is issued
unconditionally; it removes the first matching rule when one is active
(`iptables -D` fails harmlessly otherwise, which is only logged). -/
def removeRuleStep (w : World) (rule : String) : World :=
  let w := (runCmdR w (deleteRuleCmd rule)).1
  if w.iptables.contains rule then { w with iptables := removeFirst w.iptables rule }
  else w

def remove_iptables_rules (st : GenState) (w : World) : World :=
  let w := st.iptables_rules.foldl removeRuleStep w
  let w := (runCmdR w flush_output_cmd).1
  { w with iptables := [] }

def restore_service_file (st : GenState) (w : World) : World :=
  if ¬ st.service_modified then w
  else
    if (lookupA w.fs backup_service).isSome then
      let w := copy2 w backup_service service_file
      (runCmdR w "sudo systemctl daemon-reload").1
    else w

def temp_backup_dir : String := "/tmp/petclinic_backup_temp"

def cleanup_temp_files (w : World) : World :=
  let w := if (lookupA w.fs large_file).isSome then { w with fs := removeA w.fs large_file } else w
  let w := if (lookupA w.fs temp_backup_dir).isSome then { w with fs := removeA w.fs temp_backup_dir } else w
  w

/-- `verify_service_health`: three short-circuiting probes.  The semantic
outcome of each probe (`systemctl is-active` reporting active, port 8080
listening, the HTTP request returning 200) is carried by the corresponding
`World` field; the shell probes are logged. -/
def verify_service_health (w : World) : World × Bool :=
  let w1 := { w with cmdLog := w.cmdLog ++ ["sudo systemctl is-active petclinic.service"] }
  if ¬ w1.svcActive then (w1, false)
  else
    let w2 := { w1 with cmdLog := w1.cmdLog ++ ["netstat -tlnp | grep :8080"] }
    if ¬ w2.portListening then (w2, false)
    else (w2, w2.httpOk)

def clear_state (w : World) : World :=
  match w.stateFile with
  | .absent => w
  | _ => { w with stateFile := .absent }

inductive RStep where
  | stopServiceS | killProcessesS | removeIptablesS | restoreServiceFileS
  | restoreFilesS | restorePermissionsS | cleanupTempS | startServiceS
  | verifyHealthS | clearStateS
deriving DecidableEq, Repr

def revertStepOrder : List RStep :=
  [.stopServiceS, .killProcessesS, .removeIptablesS, .restoreServiceFileS,
   .restoreFilesS, .restorePermissionsS, .cleanupTempS, .startServiceS, .verifyHealthS]

/-- The reversal order the spec claims (it does not mention the
temporary-file cleanup). -/
def claimedRevertOrder : List RStep :=
  [.stopServiceS, .killProcessesS, .removeIptablesS, .restoreServiceFileS,
   .restoreFilesS, .restorePermissionsS, .startServiceS, .verifyHealthS]

/-- The world after the eight effectful steps of `full_revert` that precede
the health check, in source order. -/
def revert_steps (st : GenState) (w : World) : World :=
  let w := stop_serviceR w
  let w := kill_processes st w
  let w := remove_iptables_rules st w
  let w := restore_service_file st w
  let w := restore_files st w
  let w := restore_permissions st w
  let w := cleanup_temp_files w
  (start_serviceR w).1

/-- `full_revert`: run every step, then verify health; only a positive
verdict clears the persisted state, and the verdict is the return value. -/
def full_revert (st : GenState) (w : World) : Bool × World × List RStep :=
  let w1 := revert_steps st w
  let p := verify_service_health w1
  if p.2 then (true, clear_state p.1, revertStepOrder ++ [.clearStateS])
  else (false, p.1, revertStepOrder)

def healthVerdict (w : World) : Bool := w.svcActive && (w.portListening && w.httpOk)

/-! ## The write pattern of `save_state`

`save_state` opens the state file with mode `"w"` — truncating it in place —
and then `json.dump`s the record into it.  This is modelled as the sequence
of primitive file operations the call performs, so intermediate on-disk
contents (crash points) can be inspected.  `json.dump(..., indent=2)` is
modelled by a serializer producing one definite nonempty text per state; its
exact whitespace is not reproduced (no claim depends on it). -/

def jsonStr (s : String) : String := "\"" ++ s ++ "\""

def dumpOptNat : Option Nat → String
  | none => "null"
  | some n => toString n

def dumpOptStr : Option String → String
  | none => "null"
  | some s => jsonStr s

def dumpBool : Bool → String
  | true => "true"
  | false => "false"

def dumpListWith (f : String → String) (l : List String) : String :=
  "[" ++ String.intercalate ", " (l.map f) ++ "]"

def dumpProcPair (p : String × Nat) : String :=
  "[" ++ jsonStr p.1 ++ ", " ++ toString p.2 ++ "]"

def dumpPerms (l : List (String × String)) : String :=
  "\x7b" ++ String.intercalate ", " (l.map (fun p => jsonStr p.1 ++ ": " ++ jsonStr p.2)) ++ "\x7d"

def dumpState (s : GenState) : String :=
  "\x7b\"active_scenario\": " ++ dumpOptNat s.active_scenario ++
  ", \"timestamp\": " ++ dumpOptStr s.timestamp ++
  ", \"backup_created\": " ++ dumpBool s.backup_created ++
  ", \"processes_started\": " ++ "[" ++ String.intercalate ", " (s.processes_started.map dumpProcPair) ++ "]" ++
  ", \"files_modified\": " ++ dumpListWith jsonStr s.files_modified ++
  ", \"original_permissions\": " ++ dumpPerms s.original_permissions ++
  ", \"iptables_rules\": " ++ dumpListWith jsonStr s.iptables_rules ++
  ", \"service_modified\": " ++ dumpBool s.service_modified ++ "\x7d"

inductive FsWriteOp where
  | truncateOp : FsWriteOp
  | writeChunk : List Char → FsWriteOp
deriving DecidableEq, Repr

/-- The primitive file operations `save_state` performs on the state file:
`open(self.state_file, "w")` truncates, then the dump is written. -/
def save_state_ops (st : GenState) : List FsWriteOp :=
  [.truncateOp, .writeChunk (dumpState st).data]

/-- On-disk bytes of the state file after a prefix of the write operations
has been applied to its previous content. -/
def applyWriteOps (content : List Char) (ops : List FsWriteOp) : List Char :=
  ops.foldl (fun acc op => match op with
    | .truncateOp => []
    | .writeChunk s => acc ++ s) content

/-! ## End-to-end pipeline for configuration corruption and its revert -/

/-- `python3 crash_generator.py 5`: construct the generator (loading the
persisted state) and run scenario 5. -/
def inject5 (w : World) : RunResult :=
  run_scenario 5 (load_state initialGenState w.stateFile) w

/-- `python3 crash_reverter.py --full` after `inject5`: construct the
reverter (loading the state the injection saved) and run `full_revert`. -/
def c6pipeline (w : World) : World :=
  let r := inject5 w
  (full_revert (reverterLoad r.w.stateFile) r.w).2.1

/-! ## Concrete example environments used by counterexamples and witnesses -/

/-- A fresh host: the JAR exists with mode 755, no state file. -/
def exW1 : World := { fs := [(jar_path, "JARDATA")], perms := [(jar_path, 0o755)] }

/-- A session state whose backup flag is already set (as left behind by an
earlier `create_backup`). -/
def stBT : GenState := { initialGenState with backup_created := true }

/-- Configuration file with one property line; the state file records a
session with the backup flag set but no backup copies on disk. -/
def exW6 : World := { fs := [(props_file, "a=b\n")], stateFile := .validFull stBT }

/-- Family of environments for the configuration-corruption round trip: the
configuration file holds `content`, the persisted state records a session
with the backup flag set, and no backup copies exist on disk. -/
def wC6 (content : String) : World :=
  { fs := [(props_file, content)], stateFile := .validFull stBT }

/-- A state recording an active, un-reverted session. -/
def stActive : GenState :=
  { initialGenState with
    active_scenario := some 1
    backup_created := true
    files_modified := ["/tmp/previous_entry"] }

/-- Empty host: none of the scenario target files exist. -/
def exWEmpty : World := { }

/-- Host with a malformed state file, a live JAR, and a stale backup copy of
the JAR from an earlier session. -/
def exW10 : World :=
  { fs := [(jar_path, "CURRENT-MUTATED"), (backup_jar, "ORIGINAL-BACKUP")]
    stateFile := .malformed }

/-- Environment whose three health probes all succeed. -/
def wHealthy : World :=
  { svcActive := true, portListening := true, httpOk := true, stateFile := .validFull stBT }

/-- Environment whose `systemctl is-active` probe fails. -/
def wUnhealthy : World := { stateFile := .validFull stBT }

/-! ## Theorems -/

set_option maxRecDepth 1000000

/-- Claim C1, counterexample.  Run scenario 2 on a fresh host (`exW1`).  At
the crash point after the first eight trace events the permission change on
the JAR has been applied (it is the single ledger mutation in the prefix),
but the state persisted on disk — written by `create_backup`, the only save
so far — records no mutation at all: the record describing the `chmod` is
persisted strictly later (by the batched save at the end of `run_scenario`),
not "no later than the mutation itself". -/
theorem c1_mutation_unpersisted_at_crash_point :
    (((run_scenario 2 initialGenState exW1).tr.take 8).filter isLedgerMutation)
      = [GEvent.chmodEv jar_path 0o644] ∧
    (((run_scenario 2 initialGenState exW1).tr.take 8).filter isLedgerMutation).all
      (recordsMutationSF (persistedState exW1.stateFile
        ((run_scenario 2 initialGenState exW1).tr.take 8))) = false := by
  constructor
  · decide
  · decide

/-- Claim C4, counterexample.  With the persisted/in-memory session state
recording an active scenario 1 that was never reverted (`stActive`),
`inject(2)` is not refused: `run_scenario` returns success, performs the
permission mutation, and overwrites `active_scenario` — there is no
`ConcurrentSessionError` anywhere in the code. -/
theorem c4_concurrent_inject_not_refused :
    (run_scenario 2 stActive exW1).ok = true ∧
    GEvent.chmodEv jar_path 0o644 ∈ (run_scenario 2 stActive exW1).tr ∧
    (run_scenario 2 stActive exW1).st.active_scenario = some 2 ∧
    (run_scenario 2 stActive exW1).st ≠ stActive := by
  refine ⟨by decide, by decide, by decide, by decide⟩

/-- Claim C5, counterexample.  Scenario 5's target (the configuration file)
is absent from `exWEmpty`, yet `run_scenario 5` does not skip: it reports
success and performs a mutation — `open(props_file, "a")` creates the file
and the invalid block is appended to it. -/
theorem c5_scenario5_mutates_without_target :
    lookupA exWEmpty.fs props_file = none ∧
    (run_scenario 5 stBT exWEmpty).ok = true ∧
    lookupA (run_scenario 5 stBT exWEmpty).w.fs props_file = some invalid_config ∧
    (run_scenario 5 stBT exWEmpty).tr.any isLedgerMutation = true := by
  refine ⟨by decide, by decide, by decide, by decide⟩

/-- Claim C6, counterexample.  Original configuration content `"a=b\n"`,
`inject(5)` then `revert --full` with no backup copy on disk: the result is
`"a=b\n\n"`, not the original — the blank line that `invalid_config`'s
leading newline created before the marker survives `clean_application_properties`,
so the file is not byte-for-byte equal to its pre-injection content. -/
theorem c6_extra_blank_line_remains :
    lookupA (c6pipeline exW6).fs props_file = some "a=b\n\n" ∧
    ("a=b\n\n" : String) ≠ "a=b\n" := by
  refine ⟨by decide, by decide⟩

/-- Claim C7, counterexample.  `inject(2)` on a host without the JAR: the
precondition fails (`run_scenario` returns False after the skip), yet `main`
returns normally and the process exit code is 0, not non-zero. -/
theorem c7_failed_precondition_exits_zero :
    (run_scenario 2 (load_state initialGenState exWEmpty.stateFile) exWEmpty).ok = false ∧
    (crashGeneratorMain false false (some 2) exWEmpty).1 = 0 := by
  refine ⟨by decide, by decide⟩

/-- Claim C7, amended: `main` of crash_generator.py never calls `sys.exit`
and returns `None` on every path, so (absent an unexpected uncaught
exception) the exit code is 0 whether the scenario applied, was skipped for
a failed precondition, or the scenario number was invalid. -/
theorem crash_generator_main_always_exits_zero
    (lf sf : Bool) (sc : Option Int) (w : World) :
    (crashGeneratorMain lf sf sc w).1 = 0 := by
  unfold crashGeneratorMain
  cases sc <;> simp only <;> split <;> try rfl
  all_goals (split <;> try rfl)
  all_goals (split <;> try rfl)
  all_goals (split <;> rfl)

/-- Claim C8, counterexample.  `save_state` opens the state file with mode
`"w"`, which truncates in place.  At the crash point after the truncation
but before the dump is written, the file is empty — neither the old complete
record nor the new one (both are nonempty serialized records). -/
theorem c8_truncate_point_corrupts_state_file :
    applyWriteOps (dumpState initialGenState).data
      ((save_state_ops { initialGenState with active_scenario := some 1 }).take 1) = [] ∧
    (dumpState initialGenState).data ≠ [] ∧
    (dumpState { initialGenState with active_scenario := some 1 }).data ≠ [] := by
  refine ⟨by decide, by decide, by decide⟩

/-- Claim C8, amended: `save_state` is not write-new-then-rename.  It writes
in place: the operation sequence on the state file is truncate-then-write,
so after the full sequence the file holds exactly the new record, and at the
intermediate point after the truncation it is empty regardless of what the
old content was. -/
theorem save_state_truncates_then_writes (st : GenState) (old : List Char) :
    applyWriteOps old (save_state_ops st) = (dumpState st).data ∧
    applyWriteOps old ((save_state_ops st).take 1) = [] := by
  constructor
  · simp only [applyWriteOps, save_state_ops, List.foldl_cons, List.foldl_nil, List.nil_append]
  · simp only [applyWriteOps, save_state_ops, List.take_succ_cons, List.take_zero,
      List.foldl_cons, List.foldl_nil]


/-! ### Frame lemmas for the revert steps

The health-probe outcome fields and the state file are untouched by every
effectful revert step; fold-shaped steps go through a generic projection
lemma. -/

theorem foldl_world_proj {α β : Type} (g : World → β) (f : World → α → World)
    (h : ∀ w a, g (f w a) = g w) :
    ∀ (l : List α) (w : World), g (List.foldl f w l) = g w := by
  intro l
  induction l with
  | nil => intro w; rfl
  | cons a t ih =>
      intro w
      rw [List.foldl_cons, ih, h]

theorem copy2_frame (w : World) (src dst : String) :
    (copy2 w src dst).svcActive = w.svcActive ∧
    (copy2 w src dst).portListening = w.portListening ∧
    (copy2 w src dst).httpOk = w.httpOk ∧
    (copy2 w src dst).stateFile = w.stateFile ∧
    (copy2 w src dst).cmdLog = w.cmdLog := by
  unfold copy2
  rcases lookupA w.fs src with _ | content
  · exact ⟨rfl, rfl, rfl, rfl, rfl⟩
  · simp only
    rcases lookupA w.perms src with _ | m
    · exact ⟨rfl, rfl, rfl, rfl, rfl⟩
    · exact ⟨rfl, rfl, rfl, rfl, rfl⟩

theorem moveFile_frame (w : World) (src dst : String) :
    (moveFile w src dst).svcActive = w.svcActive ∧
    (moveFile w src dst).portListening = w.portListening ∧
    (moveFile w src dst).httpOk = w.httpOk ∧
    (moveFile w src dst).stateFile = w.stateFile ∧
    (moveFile w src dst).cmdLog = w.cmdLog := by
  unfold moveFile
  rcases lookupA w.fs src with _ | content
  · exact ⟨rfl, rfl, rfl, rfl, rfl⟩
  · simp only
    rcases lookupA w.perms src with _ | m
    · exact ⟨rfl, rfl, rfl, rfl, rfl⟩
    · exact ⟨rfl, rfl, rfl, rfl, rfl⟩

theorem clean_application_properties_frame (w : World) (p : String) :
    (clean_application_properties w p).svcActive = w.svcActive ∧
    (clean_application_properties w p).portListening = w.portListening ∧
    (clean_application_properties w p).httpOk = w.httpOk ∧
    (clean_application_properties w p).stateFile = w.stateFile ∧
    (clean_application_properties w p).cmdLog = w.cmdLog := by
  unfold clean_application_properties
  rcases lookupA w.fs p with _ | content
  · exact ⟨rfl, rfl, rfl, rfl, rfl⟩
  · exact ⟨rfl, rfl, rfl, rfl, rfl⟩

theorem restoreFileEntry_frame (w : World) (e : String) :
    (restoreFileEntry w e).svcActive = w.svcActive ∧
    (restoreFileEntry w e).portListening = w.portListening ∧
    (restoreFileEntry w e).httpOk = w.httpOk ∧
    (restoreFileEntry w e).stateFile = w.stateFile ∧
    (restoreFileEntry w e).cmdLog = w.cmdLog := by
  simp only [restoreFileEntry]
  repeat' split
  all_goals
    first
      | exact ⟨rfl, rfl, rfl, rfl, rfl⟩
      | exact moveFile_frame _ _ _
      | exact copy2_frame _ _ _
      | exact clean_application_properties_frame _ _

theorem restore_files_frame (st : GenState) (w : World) :
    (restore_files st w).svcActive = w.svcActive ∧
    (restore_files st w).portListening = w.portListening ∧
    (restore_files st w).httpOk = w.httpOk ∧
    (restore_files st w).stateFile = w.stateFile ∧
    (restore_files st w).cmdLog = w.cmdLog :=
  ⟨foldl_world_proj World.svcActive restoreFileEntry
      (fun w e => (restoreFileEntry_frame w e).1) _ _,
   foldl_world_proj World.portListening restoreFileEntry
      (fun w e => (restoreFileEntry_frame w e).2.1) _ _,
   foldl_world_proj World.httpOk restoreFileEntry
      (fun w e => (restoreFileEntry_frame w e).2.2.1) _ _,
   foldl_world_proj World.stateFile restoreFileEntry
      (fun w e => (restoreFileEntry_frame w e).2.2.2.1) _ _,
   foldl_world_proj World.cmdLog restoreFileEntry
      (fun w e => (restoreFileEntry_frame w e).2.2.2.2) _ _⟩

theorem restorePermEntry_frame (w : World) (pr : String × String) :
    (restorePermEntry w pr).svcActive = w.svcActive ∧
    (restorePermEntry w pr).portListening = w.portListening ∧
    (restorePermEntry w pr).httpOk = w.httpOk ∧
    (restorePermEntry w pr).stateFile = w.stateFile ∧
    (restorePermEntry w pr).cmdLog = w.cmdLog := by
  unfold restorePermEntry
  rcases parseOct pr.2 with _ | m
  · exact ⟨rfl, rfl, rfl, rfl, rfl⟩
  · simp only
    split
    · exact ⟨rfl, rfl, rfl, rfl, rfl⟩
    · exact ⟨rfl, rfl, rfl, rfl, rfl⟩

theorem restore_permissions_frame (st : GenState) (w : World) :
    (restore_permissions st w).svcActive = w.svcActive ∧
    (restore_permissions st w).portListening = w.portListening ∧
    (restore_permissions st w).httpOk = w.httpOk ∧
    (restore_permissions st w).stateFile = w.stateFile ∧
    (restore_permissions st w).cmdLog = w.cmdLog :=
  ⟨foldl_world_proj World.svcActive restorePermEntry
      (fun w e => (restorePermEntry_frame w e).1) _ _,
   foldl_world_proj World.portListening restorePermEntry
      (fun w e => (restorePermEntry_frame w e).2.1) _ _,
   foldl_world_proj World.httpOk restorePermEntry
      (fun w e => (restorePermEntry_frame w e).2.2.1) _ _,
   foldl_world_proj World.stateFile restorePermEntry
      (fun w e => (restorePermEntry_frame w e).2.2.2.1) _ _,
   foldl_world_proj World.cmdLog restorePermEntry
      (fun w e => (restorePermEntry_frame w e).2.2.2.2) _ _⟩

theorem killRecordedStep_frame (w : World) (pr : String × Nat) :
    (killRecordedStep w pr).svcActive = w.svcActive ∧
    (killRecordedStep w pr).portListening = w.portListening ∧
    (killRecordedStep w pr).httpOk = w.httpOk ∧
    (killRecordedStep w pr).stateFile = w.stateFile :=
  ⟨rfl, rfl, rfl, rfl⟩

theorem killPortStep_frame (w : World) (pid : Nat) :
    (killPortStep w pid).svcActive = w.svcActive ∧
    (killPortStep w pid).portListening = w.portListening ∧
    (killPortStep w pid).httpOk = w.httpOk ∧
    (killPortStep w pid).stateFile = w.stateFile :=
  ⟨rfl, rfl, rfl, rfl⟩

theorem kill_processes_frame (st : GenState) (w : World) :
    (kill_processes st w).svcActive = w.svcActive ∧
    (kill_processes st w).portListening = w.portListening ∧
    (kill_processes st w).httpOk = w.httpOk ∧
    (kill_processes st w).stateFile = w.stateFile := by
  refine ⟨?_, ?_, ?_, ?_⟩
  · simp only [kill_processes, runCmdR,
      foldl_world_proj World.svcActive killPortStep (fun v a => (killPortStep_frame v a).1),
      foldl_world_proj World.svcActive killRecordedStep (fun v a => (killRecordedStep_frame v a).1)]
  · simp only [kill_processes, runCmdR,
      foldl_world_proj World.portListening killPortStep (fun v a => (killPortStep_frame v a).2.1),
      foldl_world_proj World.portListening killRecordedStep (fun v a => (killRecordedStep_frame v a).2.1)]
  · simp only [kill_processes, runCmdR,
      foldl_world_proj World.httpOk killPortStep (fun v a => (killPortStep_frame v a).2.2.1),
      foldl_world_proj World.httpOk killRecordedStep (fun v a => (killRecordedStep_frame v a).2.2.1)]
  · simp only [kill_processes, runCmdR,
      foldl_world_proj World.stateFile killPortStep (fun v a => (killPortStep_frame v a).2.2.2),
      foldl_world_proj World.stateFile killRecordedStep (fun v a => (killRecordedStep_frame v a).2.2.2)]

theorem removeRuleStep_frame (w : World) (r : String) :
    (removeRuleStep w r).svcActive = w.svcActive ∧
    (removeRuleStep w r).portListening = w.portListening ∧
    (removeRuleStep w r).httpOk = w.httpOk ∧
    (removeRuleStep w r).stateFile = w.stateFile := by
  simp only [removeRuleStep, runCmdR]
  split <;> exact ⟨rfl, rfl, rfl, rfl⟩

theorem remove_iptables_rules_frame (st : GenState) (w : World) :
    (remove_iptables_rules st w).svcActive = w.svcActive ∧
    (remove_iptables_rules st w).portListening = w.portListening ∧
    (remove_iptables_rules st w).httpOk = w.httpOk ∧
    (remove_iptables_rules st w).stateFile = w.stateFile := by
  refine ⟨?_, ?_, ?_, ?_⟩
  · simp only [remove_iptables_rules, runCmdR,
      foldl_world_proj World.svcActive removeRuleStep (fun v a => (removeRuleStep_frame v a).1)]
  · simp only [remove_iptables_rules, runCmdR,
      foldl_world_proj World.portListening removeRuleStep (fun v a => (removeRuleStep_frame v a).2.1)]
  · simp only [remove_iptables_rules, runCmdR,
      foldl_world_proj World.httpOk removeRuleStep (fun v a => (removeRuleStep_frame v a).2.2.1)]
  · simp only [remove_iptables_rules, runCmdR,
      foldl_world_proj World.stateFile removeRuleStep (fun v a => (removeRuleStep_frame v a).2.2.2)]

theorem restore_service_file_frame (st : GenState) (w : World) :
    (restore_service_file st w).svcActive = w.svcActive ∧
    (restore_service_file st w).portListening = w.portListening ∧
    (restore_service_file st w).httpOk = w.httpOk ∧
    (restore_service_file st w).stateFile = w.stateFile := by
  simp only [restore_service_file, runCmdR]
  repeat' split
  all_goals
    first
      | exact ⟨rfl, rfl, rfl, rfl⟩
      | refine ⟨?_, ?_, ?_, ?_⟩ <;>
          simp only [(copy2_frame w backup_service service_file).1,
            (copy2_frame w backup_service service_file).2.1,
            (copy2_frame w backup_service service_file).2.2.1,
            (copy2_frame w backup_service service_file).2.2.2.1]

theorem cleanup_temp_files_frame (w : World) :
    (cleanup_temp_files w).svcActive = w.svcActive ∧
    (cleanup_temp_files w).portListening = w.portListening ∧
    (cleanup_temp_files w).httpOk = w.httpOk ∧
    (cleanup_temp_files w).stateFile = w.stateFile := by
  simp only [cleanup_temp_files]
  repeat' split
  all_goals exact ⟨rfl, rfl, rfl, rfl⟩

theorem stop_serviceR_frame (w : World) :
    (stop_serviceR w).svcActive = w.svcActive ∧
    (stop_serviceR w).portListening = w.portListening ∧
    (stop_serviceR w).httpOk = w.httpOk ∧
    (stop_serviceR w).stateFile = w.stateFile :=
  ⟨rfl, rfl, rfl, rfl⟩

theorem start_serviceR_frame (w : World) :
    ((start_serviceR w).1).svcActive = w.svcActive ∧
    ((start_serviceR w).1).portListening = w.portListening ∧
    ((start_serviceR w).1).httpOk = w.httpOk ∧
    ((start_serviceR w).1).stateFile = w.stateFile :=
  ⟨rfl, rfl, rfl, rfl⟩

/-- The eight effectful steps preceding the health check change none of the
probe outcomes and leave the state file untouched. -/
theorem revert_steps_frame (st : GenState) (w : World) :
    (revert_steps st w).svcActive = w.svcActive ∧
    (revert_steps st w).portListening = w.portListening ∧
    (revert_steps st w).httpOk = w.httpOk ∧
    (revert_steps st w).stateFile = w.stateFile := by
  simp only [revert_steps]
  refine ⟨?_, ?_, ?_, ?_⟩
  · rw [(start_serviceR_frame _).1, (cleanup_temp_files_frame _).1,
      (restore_permissions_frame _ _).1, (restore_files_frame _ _).1,
      (restore_service_file_frame _ _).1, (remove_iptables_rules_frame _ _).1,
      (kill_processes_frame _ _).1, (stop_serviceR_frame _).1]
  · rw [(start_serviceR_frame _).2.1, (cleanup_temp_files_frame _).2.1,
      (restore_permissions_frame _ _).2.1, (restore_files_frame _ _).2.1,
      (restore_service_file_frame _ _).2.1, (remove_iptables_rules_frame _ _).2.1,
      (kill_processes_frame _ _).2.1, (stop_serviceR_frame _).2.1]
  · rw [(start_serviceR_frame _).2.2.1, (cleanup_temp_files_frame _).2.2.1,
      (restore_permissions_frame _ _).2.2.1, (restore_files_frame _ _).2.2.1,
      (restore_service_file_frame _ _).2.2.1, (remove_iptables_rules_frame _ _).2.2.1,
      (kill_processes_frame _ _).2.2.1, (stop_serviceR_frame _).2.2.1]
  · rw [(start_serviceR_frame _).2.2.2, (cleanup_temp_files_frame _).2.2.2,
      (restore_permissions_frame _ _).2.2.2.1, (restore_files_frame _ _).2.2.2.1,
      (restore_service_file_frame _ _).2.2.2, (remove_iptables_rules_frame _ _).2.2.2,
      (kill_processes_frame _ _).2.2.2, (stop_serviceR_frame _).2.2.2]

theorem verify_service_health_verdict (w : World) :
    (verify_service_health w).2 = healthVerdict w := by
  cases h1 : w.svcActive <;> cases h2 : w.portListening <;> cases h3 : w.httpOk <;>
    simp [verify_service_health, healthVerdict, h1, h2, h3]

theorem verify_service_health_frame (w : World) :
    ((verify_service_health w).1).svcActive = w.svcActive ∧
    ((verify_service_health w).1).portListening = w.portListening ∧
    ((verify_service_health w).1).httpOk = w.httpOk ∧
    ((verify_service_health w).1).stateFile = w.stateFile := by
  simp only [verify_service_health]
  repeat' split
  all_goals exact ⟨rfl, rfl, rfl, rfl⟩

theorem clear_state_stateFile (w : World) :
    (clear_state w).stateFile = .absent := by
  unfold clear_state
  split
  · rename_i h
    exact h
  · rfl

/-! ### Command-log lemmas -/

theorem removeRuleStep_cmdLog (w : World) (r : String) :
    (removeRuleStep w r).cmdLog = w.cmdLog ++ [deleteRuleCmd r] := by
  simp only [removeRuleStep, runCmdR]
  split <;> rfl

theorem foldl_removeRuleStep_cmdLog (rules : List String) (w : World) :
    (List.foldl removeRuleStep w rules).cmdLog = w.cmdLog ++ rules.map deleteRuleCmd := by
  induction rules generalizing w with
  | nil => simp
  | cons r rs ih =>
      rw [List.foldl_cons, ih, removeRuleStep_cmdLog]
      simp

theorem remove_iptables_rules_cmdLog (st : GenState) (w : World) :
    (remove_iptables_rules st w).cmdLog
      = w.cmdLog ++ st.iptables_rules.map deleteRuleCmd ++ [flush_output_cmd] := by
  simp only [remove_iptables_rules, runCmdR, foldl_removeRuleStep_cmdLog]

theorem cleanup_temp_files_cmdLog (w : World) :
    (cleanup_temp_files w).cmdLog = w.cmdLog := by
  simp only [cleanup_temp_files]
  repeat' split
  all_goals rfl

theorem clear_state_cmdLog (w : World) :
    (clear_state w).cmdLog = w.cmdLog := by
  unfold clear_state
  split <;> rfl

theorem cmdLog_mem_restore_service_file (st : GenState) (w : World) (x : String)
    (h : x ∈ w.cmdLog) : x ∈ (restore_service_file st w).cmdLog := by
  simp only [restore_service_file, runCmdR]
  repeat' split
  all_goals
    first
      | exact h
      | (apply List.mem_append_left
         rw [(copy2_frame w backup_service service_file).2.2.2.2]
         exact h)

theorem cmdLog_mem_start (w : World) (x : String) (h : x ∈ w.cmdLog) :
    x ∈ ((start_serviceR w).1).cmdLog :=
  List.mem_append_left _ h

theorem cmdLog_mem_verify (w : World) (x : String) (h : x ∈ w.cmdLog) :
    x ∈ ((verify_service_health w).1).cmdLog := by
  simp only [verify_service_health]
  repeat' split
  all_goals simp [List.mem_append, h]

/-- Claim C2.  `full_revert` returns exactly the health verdict; on a
positive verdict (and only then) the persisted state file is removed, while
on a failed health check it returns failure and leaves the state file
exactly as it was, so recovery can be retried. -/
theorem full_revert_clears_state_iff_healthy (st : GenState) (w : World) :
    ((full_revert st w).1 = healthVerdict w) ∧
    (healthVerdict w = true → (full_revert st w).2.1.stateFile = .absent) ∧
    (healthVerdict w = false →
      (full_revert st w).1 = false ∧ (full_revert st w).2.1.stateFile = w.stateFile) ∧
    ((RStep.clearStateS ∈ (full_revert st w).2.2) ↔ healthVerdict w = true) := by
  have hfr := revert_steps_frame st w
  have hv : (verify_service_health (revert_steps st w)).2 = healthVerdict w := by
    rw [verify_service_health_verdict]
    unfold healthVerdict
    rw [hfr.1, hfr.2.1, hfr.2.2.1]
  have hsf : ((verify_service_health (revert_steps st w)).1).stateFile = w.stateFile := by
    rw [(verify_service_health_frame _).2.2.2, hfr.2.2.2]
  simp only [full_revert]
  split
  · rename_i h
    rw [hv] at h
    refine ⟨by rw [h], fun _ => clear_state_stateFile _, ?_, ?_⟩
    · intro hf
      rw [hf] at h
      exact absurd h (by decide)
    · exact ⟨fun _ => h,
        fun _ => show RStep.clearStateS ∈ revertStepOrder ++ [RStep.clearStateS] by decide⟩
  · rename_i h
    rw [hv] at h
    have h2 : healthVerdict w = false := by
      cases hc : healthVerdict w
      · rfl
      · exact absurd hc h
    refine ⟨by rw [h2], ?_, fun _ => ⟨rfl, hsf⟩, ?_⟩
    · intro ht
      rw [ht] at h2
      exact absurd h2 (by decide)
    · constructor
      · intro hm
        exact absurd (show RStep.clearStateS ∈ revertStepOrder from hm) (by decide)
      · intro ht
        rw [ht] at h2
        exact absurd h2 (by decide)

/-- Claim C3.  Whatever the recorded ledger contains, `full_revert` executes
its steps in exactly the source order — stop service, kill processes, remove
iptables rules, restore service file, restore files, restore permissions,
clean temporary files, start service, verify health (then clear state on a
positive verdict) — and in particular the order claimed by the spec (which
omits the temporary-file cleanup between permission restore and restart) is
a subsequence of it. -/
theorem full_revert_step_order (st : GenState) (w : World) :
    (full_revert st w).2.2
      = revertStepOrder ++ (if healthVerdict w then [RStep.clearStateS] else []) ∧
    List.Sublist claimedRevertOrder ((full_revert st w).2.2) := by
  have hfr := revert_steps_frame st w
  have hv : (verify_service_health (revert_steps st w)).2 = healthVerdict w := by
    rw [verify_service_health_verdict]
    unfold healthVerdict
    rw [hfr.1, hfr.2.1, hfr.2.2.1]
  simp only [full_revert]
  split
  · rename_i h
    rw [hv] at h
    rw [h]
    refine ⟨?_, ?_⟩
    · show revertStepOrder ++ [RStep.clearStateS]
        = revertStepOrder ++ (if true = true then [RStep.clearStateS] else [])
      decide
    · show List.Sublist claimedRevertOrder (revertStepOrder ++ [RStep.clearStateS])
      decide
  · rename_i h
    rw [hv] at h
    have h2 : healthVerdict w = false := by
      cases hc : healthVerdict w
      · rfl
      · exact absurd hc h
    rw [h2]
    refine ⟨?_, ?_⟩
    · show revertStepOrder
        = revertStepOrder ++ (if false = true then [RStep.clearStateS] else [])
      decide
    · show List.Sublist claimedRevertOrder revertStepOrder
      decide

/-- Claim C9.  `remove_iptables_rules` issues one delete command per recorded
rule and then always issues `iptables -F OUTPUT`, emptying the whole OUTPUT
chain regardless of which rules — possibly none — the ledger records; every
`full_revert` run therefore also flushes rules that no scenario added. -/
theorem remove_iptables_rules_always_flushes_output (st : GenState) (w : World) :
    (remove_iptables_rules st w).iptables = [] ∧
    (remove_iptables_rules st w).cmdLog
      = w.cmdLog ++ st.iptables_rules.map deleteRuleCmd ++ [flush_output_cmd] ∧
    flush_output_cmd ∈ ((full_revert st w).2.1).cmdLog := by
  refine ⟨rfl, remove_iptables_rules_cmdLog st w, ?_⟩
  have hrs : flush_output_cmd ∈ ((revert_steps st w)).cmdLog := by
    simp only [revert_steps]
    apply cmdLog_mem_start
    rw [cleanup_temp_files_cmdLog, (restore_permissions_frame st _).2.2.2.2,
      (restore_files_frame st _).2.2.2.2]
    apply cmdLog_mem_restore_service_file
    rw [remove_iptables_rules_cmdLog]
    simp
  simp only [full_revert]
  split
  · rw [clear_state_cmdLog]
    exact cmdLog_mem_verify _ _ hrs
  · exact cmdLog_mem_verify _ _ hrs

theorem full_revert_clears_state_iff_healthy_witness :
    (full_revert initialGenState wHealthy).2.1.stateFile = StateFileContent.absent ∧
    (full_revert initialGenState wUnhealthy).1 = false ∧
    (full_revert initialGenState wUnhealthy).2.1.stateFile = wUnhealthy.stateFile :=
  ⟨(full_revert_clears_state_iff_healthy initialGenState wHealthy).2.1 (by decide),
   ((full_revert_clears_state_iff_healthy initialGenState wUnhealthy).2.2.1 (by decide)).1,
   ((full_revert_clears_state_iff_healthy initialGenState wUnhealthy).2.2.1 (by decide)).2⟩

/-! ### Lookup lemmas for the flat filesystem -/

theorem lookupA_setA_self {α : Type} (m : List (String × α)) (k : String) (v : α) :
    lookupA (setA m k v) k = some v := by
  induction m with
  | nil => simp [setA, lookupA]
  | cons p m ih =>
      obtain ⟨k', v'⟩ := p
      simp only [setA]
      split
      · simp [lookupA]
      · rename_i h
        simp only [lookupA, if_neg h]
        exact ih

theorem lookupA_setA_ne {α : Type} (m : List (String × α)) (k k' : String) (v : α)
    (h : k' ≠ k) : lookupA (setA m k' v) k = lookupA m k := by
  induction m with
  | nil => simp [setA, lookupA, h]
  | cons p m ih =>
      obtain ⟨k0, v0⟩ := p
      simp only [setA]
      split
      · rename_i h0
        subst h0
        simp [lookupA, if_neg h]
      · simp only [lookupA]
        split
        · rfl
        · exact ih

theorem lookupA_copy2_dst (w : World) (src dst : String) (c : String)
    (h : lookupA w.fs src = some c) :
    lookupA (copy2 w src dst).fs dst = some c := by
  unfold copy2
  rw [h]
  simp only
  rcases lookupA w.perms src with _ | m
  · exact lookupA_setA_self _ _ _
  · exact lookupA_setA_self _ _ _

theorem lookupA_copy2_ne (w : World) (src dst k : String) (h : dst ≠ k) :
    lookupA (copy2 w src dst).fs k = lookupA w.fs k := by
  unfold copy2
  rcases lookupA w.fs src with _ | c
  · rfl
  · simp only
    rcases lookupA w.perms src with _ | m
    · exact lookupA_setA_ne _ _ _ _ h
    · exact lookupA_setA_ne _ _ _ _ h

/-- `create_backup` on a context whose backup flag is clear copies the
current JAR bytes over the backup location, whatever was there before. -/
theorem create_backup_overwrites_jar_backup (c : GenCtx) (jc : String)
    (hb : c.st.backup_created = false)
    (hjar : lookupA c.w.fs jar_path = some jc) :
    (create_backup c).st.backup_created = true ∧
    lookupA (create_backup c).w.fs backup_jar = some jc := by
  unfold create_backup
  rw [hb]
  simp only [Bool.false_eq_true, if_false, logG, emit]
  rw [hjar]
  simp only
  rcases lookupA (copy2 c.w jar_path backup_jar).fs service_file with _ | sc
  · simp only
    rcases lookupA (copy2 c.w jar_path backup_jar).fs props_file with _ | pc
    · exact ⟨rfl, lookupA_copy2_dst _ _ _ _ hjar⟩
    · refine ⟨rfl, ?_⟩
      simp only [save_state]
      rw [lookupA_copy2_ne _ _ _ _ (by decide)]
      exact lookupA_copy2_dst _ _ _ _ hjar
  · simp only
    rcases lookupA (copy2 (copy2 c.w jar_path backup_jar) service_file backup_service).fs props_file with _ | pc
    · refine ⟨rfl, ?_⟩
      simp only [save_state]
      rw [lookupA_copy2_ne _ _ _ _ (by decide)]
      exact lookupA_copy2_dst _ _ _ _ hjar
    · refine ⟨rfl, ?_⟩
      simp only [save_state]
      rw [lookupA_copy2_ne _ _ _ _ (by decide)]
      rw [lookupA_copy2_ne _ _ _ _ (by decide)]
      exact lookupA_copy2_dst _ _ _ _ hjar

/-- Claim C10.  A state file holding invalid JSON is swallowed by
`load_state` (only a warning is logged) and the generator proceeds with the
default state, whose `backup_created` flag is false; the next
`create_backup` therefore copies again, overwriting whatever backup copy
exists with the current — possibly already mutated — live file bytes. -/
theorem load_state_malformed_defaults_and_rebackup (w : World) (jc : String)
    (hm : w.stateFile = .malformed)
    (hjar : lookupA w.fs jar_path = some jc) :
    load_state initialGenState w.stateFile = initialGenState ∧
    initialGenState.backup_created = false ∧
    (create_backup ⟨initialGenState, w, []⟩).st.backup_created = true ∧
    lookupA (create_backup ⟨initialGenState, w, []⟩).w.fs backup_jar = some jc := by
  rw [hm]
  exact ⟨rfl, rfl,
    (create_backup_overwrites_jar_backup _ _ rfl hjar).1,
    (create_backup_overwrites_jar_backup _ _ rfl hjar).2⟩

theorem load_state_malformed_defaults_and_rebackup_witness :
    load_state initialGenState exW10.stateFile = initialGenState ∧
    initialGenState.backup_created = false ∧
    (create_backup ⟨initialGenState, exW10, []⟩).st.backup_created = true ∧
    lookupA (create_backup ⟨initialGenState, exW10, []⟩).w.fs backup_jar
      = some "CURRENT-MUTATED" :=
  load_state_malformed_defaults_and_rebackup exW10 "CURRENT-MUTATED" (by decide) (by decide)

/-! ### `create_backup` and `stop_service` preservation lemmas -/

theorem create_backup_st_fields (c : GenCtx) :
    (create_backup c).st.active_scenario = c.st.active_scenario ∧
    (create_backup c).st.timestamp = c.st.timestamp ∧
    (create_backup c).st.processes_started = c.st.processes_started ∧
    (create_backup c).st.files_modified = c.st.files_modified ∧
    (create_backup c).st.original_permissions = c.st.original_permissions ∧
    (create_backup c).st.iptables_rules = c.st.iptables_rules ∧
    (create_backup c).st.service_modified = c.st.service_modified := by
  unfold create_backup
  simp only [logG, emit, save_state]
  repeat' split
  all_goals exact ⟨rfl, rfl, rfl, rfl, rfl, rfl, rfl⟩

/-- `create_backup` writes only under the backup directory: every other
path's bytes are unchanged. -/
theorem create_backup_fs_other (c : GenCtx) (k : String)
    (h1 : backup_jar ≠ k) (h2 : backup_service ≠ k) (h3 : backup_props ≠ k) :
    lookupA (create_backup c).w.fs k = lookupA c.w.fs k := by
  unfold create_backup
  simp only [logG, emit, save_state]
  repeat' split
  all_goals try rfl
  all_goals
    (repeat
      first
        | rw [lookupA_copy2_ne _ _ _ _ h1]
        | rw [lookupA_copy2_ne _ _ _ _ h2]
        | rw [lookupA_copy2_ne _ _ _ _ h3])

theorem scenario_2_applied (c : GenCtx) (hjar : (lookupA c.w.fs jar_path).isSome = true) :
    (scenario_2_permission_error c).2 = true ∧
    (scenario_2_permission_error c).1.st.active_scenario = c.st.active_scenario ∧
    GEvent.chmodEv jar_path 0o644 ∈ (scenario_2_permission_error c).1.tr ∧
    (scenario_2_permission_error c).1.st.files_modified
      = c.st.files_modified ++ [jar_path] := by
  unfold scenario_2_permission_error
  simp only [logG, emit, start_service]
  have hnone : (lookupA c.w.fs jar_path).isNone = false := by
    rcases h : lookupA c.w.fs jar_path with _ | v
    · rw [h] at hjar
      exact absurd hjar (by decide)
    · rfl
  simp only [hnone, Bool.false_eq_true, if_false]
  split <;>
    refine ⟨?_, ?_, ?_, ?_⟩ <;>
    first
      | trivial
      | rfl
      | simp [List.mem_append]

theorem run_scenario_valid (id : Nat) (st : GenState) (w : World)
    (h1 : 1 ≤ id) (h2 : id ≤ 8) :
    run_scenario id st w =
      ⟨(save_state (scenarioFn id (afterPrelude id st w)).1).st,
       (save_state (scenarioFn id (afterPrelude id st w)).1).w,
       (save_state (scenarioFn id (afterPrelude id st w)).1).tr,
       (scenarioFn id (afterPrelude id st w)).2⟩ := by
  unfold run_scenario
  rw [if_neg (by omega)]

theorem afterPrelude_st_fields (id : Nat) (st : GenState) (w : World) :
    (afterPrelude id st w).st.active_scenario = some id ∧
    (afterPrelude id st w).st.processes_started = st.processes_started ∧
    (afterPrelude id st w).st.files_modified = st.files_modified ∧
    (afterPrelude id st w).st.original_permissions = st.original_permissions ∧
    (afterPrelude id st w).st.iptables_rules = st.iptables_rules ∧
    (afterPrelude id st w).st.service_modified = st.service_modified :=
  ⟨rfl,
   (create_backup_st_fields ⟨st, w, []⟩).2.2.1,
   (create_backup_st_fields ⟨st, w, []⟩).2.2.2.1,
   (create_backup_st_fields ⟨st, w, []⟩).2.2.2.2.1,
   (create_backup_st_fields ⟨st, w, []⟩).2.2.2.2.2.1,
   (create_backup_st_fields ⟨st, w, []⟩).2.2.2.2.2.2⟩

theorem afterPrelude_fs (id : Nat) (st : GenState) (w : World) (k : String)
    (h1 : backup_jar ≠ k) (h2 : backup_service ≠ k) (h3 : backup_props ≠ k) :
    lookupA (afterPrelude id st w).w.fs k = lookupA w.fs k :=
  create_backup_fs_other ⟨st, w, []⟩ k h1 h2 h3

/-- Claim C4, amended: `run_scenario` performs no active-session check.
With the session state already recording an active scenario, `inject(2)`
still runs: it succeeds, overwrites `active_scenario`, applies the chmod
mutation, and layers its ledger entry after the pre-existing ones. -/
theorem run_scenario_ignores_active_session (st : GenState) (w : World)
    (_ha : st.active_scenario ≠ none)
    (hjar : (lookupA w.fs jar_path).isSome = true) :
    (run_scenario 2 st w).ok = true ∧
    (run_scenario 2 st w).st.active_scenario = some 2 ∧
    GEvent.chmodEv jar_path 0o644 ∈ (run_scenario 2 st w).tr ∧
    (run_scenario 2 st w).st.files_modified = st.files_modified ++ [jar_path] := by
  rw [run_scenario_valid 2 st w (by decide) (by decide)]
  have hjar2 : (lookupA (afterPrelude 2 st w).w.fs jar_path).isSome = true := by
    rw [afterPrelude_fs 2 st w jar_path (by decide) (by decide) (by decide)]
    exact hjar
  have happ := scenario_2_applied (afterPrelude 2 st w) hjar2
  have hfn : scenarioFn 2 (afterPrelude 2 st w)
      = scenario_2_permission_error (afterPrelude 2 st w) := rfl
  rw [hfn]
  refine ⟨happ.1, ?_, ?_, ?_⟩
  · show (scenario_2_permission_error (afterPrelude 2 st w)).1.st.active_scenario = some 2
    rw [happ.2.1]
    exact (afterPrelude_st_fields 2 st w).1
  · show GEvent.chmodEv jar_path 0o644
      ∈ (scenario_2_permission_error (afterPrelude 2 st w)).1.tr
        ++ [GEvent.saveStateEv (scenario_2_permission_error (afterPrelude 2 st w)).1.st]
    exact List.mem_append_left _ happ.2.2.1
  · show (scenario_2_permission_error (afterPrelude 2 st w)).1.st.files_modified
      = st.files_modified ++ [jar_path]
    rw [happ.2.2.2, (afterPrelude_st_fields 2 st w).2.2.1]

theorem run_scenario_ignores_active_session_witness :
    (run_scenario 2 stActive exW1).ok = true ∧
    (run_scenario 2 stActive exW1).st.active_scenario = some 2 ∧
    GEvent.chmodEv jar_path 0o644 ∈ (run_scenario 2 stActive exW1).tr ∧
    (run_scenario 2 stActive exW1).st.files_modified
      = stActive.files_modified ++ [jar_path] :=
  run_scenario_ignores_active_session stActive exW1 (by decide) (by decide)

/-! ### Scenario precondition behaviour -/

theorem create_backup_tr_no_mut (c : GenCtx) :
    (create_backup c).tr.filter isLedgerMutation = c.tr.filter isLedgerMutation := by
  unfold create_backup
  simp only [logG, emit, save_state]
  repeat' split
  all_goals simp [List.filter_append, isLedgerMutation]

theorem afterPrelude_no_mut (id : Nat) (st : GenState) (w : World) :
    (afterPrelude id st w).tr.filter isLedgerMutation = [] := by
  have h := create_backup_tr_no_mut ⟨st, w, []⟩
  unfold afterPrelude stop_service
  simp only [logG, emit]
  simp [List.filter_append, isLedgerMutation, h]

theorem scenario_2_skips (c : GenCtx) (h : lookupA c.w.fs jar_path = none) :
    (scenario_2_permission_error c).2 = false ∧
    (scenario_2_permission_error c).1.tr.filter isLedgerMutation
      = c.tr.filter isLedgerMutation ∧
    GEvent.logMsg "JAR file not found, skipping permission scenario"
      ∈ (scenario_2_permission_error c).1.tr := by
  unfold scenario_2_permission_error
  simp only [logG, emit]
  rw [h]
  simp [List.filter_append, isLedgerMutation, List.mem_append]

theorem scenario_3_skips (c : GenCtx) (h : lookupA c.w.fs jar_path = none) :
    (scenario_3_missing_file c).2 = false ∧
    (scenario_3_missing_file c).1.tr.filter isLedgerMutation
      = c.tr.filter isLedgerMutation ∧
    GEvent.logMsg "JAR file not found, skipping missing file scenario"
      ∈ (scenario_3_missing_file c).1.tr := by
  unfold scenario_3_missing_file
  simp only [logG, emit]
  rw [h]
  simp [List.filter_append, isLedgerMutation, List.mem_append]

theorem scenario_4_skips (c : GenCtx) (h : lookupA c.w.fs service_file = none) :
    (scenario_4_memory_limit c).2 = false ∧
    (scenario_4_memory_limit c).1.tr.filter isLedgerMutation
      = c.tr.filter isLedgerMutation ∧
    GEvent.logMsg "Service file not found, skipping memory limit scenario"
      ∈ (scenario_4_memory_limit c).1.tr := by
  unfold scenario_4_memory_limit
  simp only [logG, emit]
  rw [h]
  simp [List.filter_append, isLedgerMutation, List.mem_append]

theorem scenario_7_skips (c : GenCtx) (h : lookupA c.w.fs service_file = none) :
    (scenario_7_user_permission c).2 = false ∧
    (scenario_7_user_permission c).1.tr.filter isLedgerMutation
      = c.tr.filter isLedgerMutation ∧
    GEvent.logMsg "Service file not found, skipping user permission scenario"
      ∈ (scenario_7_user_permission c).1.tr := by
  unfold scenario_7_user_permission
  simp only [logG, emit]
  rw [h]
  simp [List.filter_append, isLedgerMutation, List.mem_append]

theorem scenario_5_applies (c : GenCtx) :
    (scenario_5_invalid_config c).2 = true ∧
    GEvent.appendEv props_file invalid_config ∈ (scenario_5_invalid_config c).1.tr ∧
    lookupA (scenario_5_invalid_config c).1.w.fs props_file
      = some (((lookupA c.w.fs props_file).getD "") ++ invalid_config) ∧
    (scenario_5_invalid_config c).1.st.files_modified
      = c.st.files_modified ++ [props_file] := by
  unfold scenario_5_invalid_config
  simp only [logG, emit, start_service]
  split <;>
    refine ⟨?_, ?_, ?_, ?_⟩ <;>
    first
      | trivial
      | rfl
      | exact lookupA_setA_self _ _ _
      | simp [List.mem_append]

/-- Claim C5, amended: only scenarios 2, 3, 4 and 7 check their target file.
When the JAR and the service-definition file are absent, those four
scenarios perform no mutation, report the skip in the log and return False;
scenario 5 has no existence check — it appends the invalid block anyway
(creating the configuration file) and returns True.  (Scenario 6 has no
target file at all.) -/
theorem scenario_preconditions_amended (st : GenState) (w : World)
    (hjar : lookupA w.fs jar_path = none)
    (hsvc : lookupA w.fs service_file = none) :
    ((run_scenario 2 st w).ok = false ∧
     (run_scenario 2 st w).tr.filter isLedgerMutation = [] ∧
     GEvent.logMsg "JAR file not found, skipping permission scenario"
       ∈ (run_scenario 2 st w).tr) ∧
    ((run_scenario 3 st w).ok = false ∧
     (run_scenario 3 st w).tr.filter isLedgerMutation = [] ∧
     GEvent.logMsg "JAR file not found, skipping missing file scenario"
       ∈ (run_scenario 3 st w).tr) ∧
    ((run_scenario 4 st w).ok = false ∧
     (run_scenario 4 st w).tr.filter isLedgerMutation = [] ∧
     GEvent.logMsg "Service file not found, skipping memory limit scenario"
       ∈ (run_scenario 4 st w).tr) ∧
    ((run_scenario 7 st w).ok = false ∧
     (run_scenario 7 st w).tr.filter isLedgerMutation = [] ∧
     GEvent.logMsg "Service file not found, skipping user permission scenario"
       ∈ (run_scenario 7 st w).tr) ∧
    ((run_scenario 5 st w).ok = true ∧
     GEvent.appendEv props_file invalid_config ∈ (run_scenario 5 st w).tr) := by
  have hjar2 : ∀ id, lookupA (afterPrelude id st w).w.fs jar_path = none := fun id => by
    rw [afterPrelude_fs id st w jar_path (by decide) (by decide) (by decide)]
    exact hjar
  have hsvc2 : ∀ id, lookupA (afterPrelude id st w).w.fs service_file = none := fun id => by
    rw [afterPrelude_fs id st w service_file (by decide) (by decide) (by decide)]
    exact hsvc
  refine ⟨?_, ?_, ?_, ?_, ?_⟩
  · rw [run_scenario_valid 2 st w (by decide) (by decide)]
    have hs := scenario_2_skips (afterPrelude 2 st w) (hjar2 2)
    have hfn : scenarioFn 2 (afterPrelude 2 st w)
        = scenario_2_permission_error (afterPrelude 2 st w) := rfl
    rw [hfn]
    refine ⟨hs.1, ?_, ?_⟩
    · show ((scenario_2_permission_error (afterPrelude 2 st w)).1.tr
        ++ [GEvent.saveStateEv _]).filter isLedgerMutation = []
      rw [List.filter_append, hs.2.1, afterPrelude_no_mut]
      simp [isLedgerMutation]
    · exact List.mem_append_left _ hs.2.2
  · rw [run_scenario_valid 3 st w (by decide) (by decide)]
    have hs := scenario_3_skips (afterPrelude 3 st w) (hjar2 3)
    have hfn : scenarioFn 3 (afterPrelude 3 st w)
        = scenario_3_missing_file (afterPrelude 3 st w) := rfl
    rw [hfn]
    refine ⟨hs.1, ?_, ?_⟩
    · show ((scenario_3_missing_file (afterPrelude 3 st w)).1.tr
        ++ [GEvent.saveStateEv _]).filter isLedgerMutation = []
      rw [List.filter_append, hs.2.1, afterPrelude_no_mut]
      simp [isLedgerMutation]
    · exact List.mem_append_left _ hs.2.2
  · rw [run_scenario_valid 4 st w (by decide) (by decide)]
    have hs := scenario_4_skips (afterPrelude 4 st w) (hsvc2 4)
    have hfn : scenarioFn 4 (afterPrelude 4 st w)
        = scenario_4_memory_limit (afterPrelude 4 st w) := rfl
    rw [hfn]
    refine ⟨hs.1, ?_, ?_⟩
    · show ((scenario_4_memory_limit (afterPrelude 4 st w)).1.tr
        ++ [GEvent.saveStateEv _]).filter isLedgerMutation = []
      rw [List.filter_append, hs.2.1, afterPrelude_no_mut]
      simp [isLedgerMutation]
    · exact List.mem_append_left _ hs.2.2
  · rw [run_scenario_valid 7 st w (by decide) (by decide)]
    have hs := scenario_7_skips (afterPrelude 7 st w) (hsvc2 7)
    have hfn : scenarioFn 7 (afterPrelude 7 st w)
        = scenario_7_user_permission (afterPrelude 7 st w) := rfl
    rw [hfn]
    refine ⟨hs.1, ?_, ?_⟩
    · show ((scenario_7_user_permission (afterPrelude 7 st w)).1.tr
        ++ [GEvent.saveStateEv _]).filter isLedgerMutation = []
      rw [List.filter_append, hs.2.1, afterPrelude_no_mut]
      simp [isLedgerMutation]
    · exact List.mem_append_left _ hs.2.2
  · rw [run_scenario_valid 5 st w (by decide) (by decide)]
    have hs := scenario_5_applies (afterPrelude 5 st w)
    have hfn : scenarioFn 5 (afterPrelude 5 st w)
        = scenario_5_invalid_config (afterPrelude 5 st w) := rfl
    rw [hfn]
    exact ⟨hs.1, List.mem_append_left _ hs.2.1⟩

theorem scenario_preconditions_amended_witness :
    ((run_scenario 2 initialGenState exWEmpty).ok = false ∧
     (run_scenario 2 initialGenState exWEmpty).tr.filter isLedgerMutation = [] ∧
     GEvent.logMsg "JAR file not found, skipping permission scenario"
       ∈ (run_scenario 2 initialGenState exWEmpty).tr) ∧
    ((run_scenario 3 initialGenState exWEmpty).ok = false ∧
     (run_scenario 3 initialGenState exWEmpty).tr.filter isLedgerMutation = [] ∧
     GEvent.logMsg "JAR file not found, skipping missing file scenario"
       ∈ (run_scenario 3 initialGenState exWEmpty).tr) ∧
    ((run_scenario 4 initialGenState exWEmpty).ok = false ∧
     (run_scenario 4 initialGenState exWEmpty).tr.filter isLedgerMutation = [] ∧
     GEvent.logMsg "Service file not found, skipping memory limit scenario"
       ∈ (run_scenario 4 initialGenState exWEmpty).tr) ∧
    ((run_scenario 7 initialGenState exWEmpty).ok = false ∧
     (run_scenario 7 initialGenState exWEmpty).tr.filter isLedgerMutation = [] ∧
     GEvent.logMsg "Service file not found, skipping user permission scenario"
       ∈ (run_scenario 7 initialGenState exWEmpty).tr) ∧
    ((run_scenario 5 initialGenState exWEmpty).ok = true ∧
     GEvent.appendEv props_file invalid_config
       ∈ (run_scenario 5 initialGenState exWEmpty).tr) :=
  scenario_preconditions_amended initialGenState exWEmpty (by decide) (by decide)

/-! ### Every scenario records its mutations (in memory) -/

theorem setA_any_key {α : Type} (m : List (String × α)) (k : String) (v : α) :
    (setA m k v).any (fun q => q.1 = k) = true := by
  induction m with
  | nil => simp [setA]
  | cons p m ih =>
      obtain ⟨k', v'⟩ := p
      simp only [setA]
      split
      · simp
      · simp [ih]

theorem scenario_1_records (c : GenCtx) (h : c.tr.filter isLedgerMutation = []) :
    allRecorded (scenario_1_port_conflict c).1.st (scenario_1_port_conflict c).1.tr = true := by
  unfold scenario_1_port_conflict
  simp only [logG, emit, start_service]
  split <;>
    simp [allRecorded, List.filter_append, h, isLedgerMutation, recordsMutation,
      List.any_append, setA_any_key]

theorem scenario_2_records (c : GenCtx) (h : c.tr.filter isLedgerMutation = []) :
    allRecorded (scenario_2_permission_error c).1.st (scenario_2_permission_error c).1.tr = true := by
  unfold scenario_2_permission_error
  simp only [logG, emit, start_service]
  repeat' split
  all_goals
    simp [allRecorded, List.filter_append, h, isLedgerMutation, recordsMutation,
      List.any_append, setA_any_key]

theorem scenario_3_records (c : GenCtx) (h : c.tr.filter isLedgerMutation = []) :
    allRecorded (scenario_3_missing_file c).1.st (scenario_3_missing_file c).1.tr = true := by
  unfold scenario_3_missing_file
  simp only [logG, emit, start_service]
  repeat' split
  all_goals
    simp [allRecorded, List.filter_append, h, isLedgerMutation, recordsMutation,
      List.any_append, setA_any_key]

theorem scenario_4_records (c : GenCtx) (h : c.tr.filter isLedgerMutation = []) :
    allRecorded (scenario_4_memory_limit c).1.st (scenario_4_memory_limit c).1.tr = true := by
  unfold scenario_4_memory_limit
  simp only [logG, emit, start_service]
  repeat' split
  all_goals
    simp [allRecorded, List.filter_append, h, isLedgerMutation, recordsMutation,
      List.any_append, setA_any_key]

theorem scenario_5_records (c : GenCtx) (h : c.tr.filter isLedgerMutation = []) :
    allRecorded (scenario_5_invalid_config c).1.st (scenario_5_invalid_config c).1.tr = true := by
  unfold scenario_5_invalid_config
  simp only [logG, emit, start_service]
  repeat' split
  all_goals
    simp [allRecorded, List.filter_append, h, isLedgerMutation, recordsMutation,
      List.any_append, setA_any_key]

theorem scenario_6_records (c : GenCtx) (h : c.tr.filter isLedgerMutation = []) :
    allRecorded (scenario_6_network_issues c).1.st (scenario_6_network_issues c).1.tr = true := by
  unfold scenario_6_network_issues applyIptablesRule
  simp only [logG, emit, start_service]
  repeat' split
  all_goals
    simp [allRecorded, List.filter_append, h, isLedgerMutation, recordsMutation,
      List.any_append, setA_any_key]

theorem scenario_7_records (c : GenCtx) (h : c.tr.filter isLedgerMutation = []) :
    allRecorded (scenario_7_user_permission c).1.st (scenario_7_user_permission c).1.tr = true := by
  unfold scenario_7_user_permission
  simp only [logG, emit, start_service]
  repeat' split
  all_goals
    simp [allRecorded, List.filter_append, h, isLedgerMutation, recordsMutation,
      List.any_append, setA_any_key]

theorem scenario_8_records (c : GenCtx) (h : c.tr.filter isLedgerMutation = []) :
    allRecorded (scenario_8_disk_space c).1.st (scenario_8_disk_space c).1.tr = true := by
  unfold scenario_8_disk_space
  simp only [logG, emit, start_service]
  repeat' split
  all_goals
    simp [allRecorded, List.filter_append, h, isLedgerMutation, recordsMutation,
      List.any_append, setA_any_key]

theorem allRecorded_append_save (s : GenState) (tr : List GEvent) (x : GenState) :
    allRecorded s (tr ++ [GEvent.saveStateEv x]) = allRecorded s tr := by
  simp [allRecorded, List.filter_append, isLedgerMutation]

/-- Claim C1, amended: ledger records are appended to the in-memory state as
each mutation is applied, but they reach the durable state file only in one
batch — the single `save_state` that `run_scenario` performs after the
scenario procedure returns.  For every valid scenario id and every
environment, the state returned (and persisted by that final save, as the
second conjunct states) records every ledger mutation of the whole trace;
intermediate crash points, however, see a state file without the scenario's
records (the counterexample). -/
theorem run_scenario_persists_records_only_at_end (id : Nat) (st : GenState) (w : World)
    (h1 : 1 ≤ id) (h2 : id ≤ 8) :
    allRecorded (run_scenario id st w).st (run_scenario id st w).tr = true ∧
    (run_scenario id st w).w.stateFile
      = StateFileContent.validFull (run_scenario id st w).st := by
  rw [run_scenario_valid id st w h1 h2]
  constructor
  · show allRecorded (scenarioFn id (afterPrelude id st w)).1.st
      ((scenarioFn id (afterPrelude id st w)).1.tr
        ++ [GEvent.saveStateEv (scenarioFn id (afterPrelude id st w)).1.st]) = true
    rw [allRecorded_append_save]
    interval_cases id
    · exact scenario_1_records _ (afterPrelude_no_mut _ st w)
    · exact scenario_2_records _ (afterPrelude_no_mut _ st w)
    · exact scenario_3_records _ (afterPrelude_no_mut _ st w)
    · exact scenario_4_records _ (afterPrelude_no_mut _ st w)
    · exact scenario_5_records _ (afterPrelude_no_mut _ st w)
    · exact scenario_6_records _ (afterPrelude_no_mut _ st w)
    · exact scenario_7_records _ (afterPrelude_no_mut _ st w)
    · exact scenario_8_records _ (afterPrelude_no_mut _ st w)
  · rfl

theorem run_scenario_persists_records_only_at_end_witness :
    allRecorded (run_scenario 2 initialGenState exW1).st
      (run_scenario 2 initialGenState exW1).tr = true ∧
    (run_scenario 2 initialGenState exW1).w.stateFile
      = StateFileContent.validFull (run_scenario 2 initialGenState exW1).st :=
  run_scenario_persists_records_only_at_end 2 initialGenState exW1 (by decide) (by decide)

/-! ### Byte-exact behaviour of the configuration cleanup -/

theorem create_backup_noop (c : GenCtx) (h : c.st.backup_created = true) :
    create_backup c = c := by
  unfold create_backup
  rw [if_pos h]

/-- The whole injection-then-revert pipeline touches the configuration file
exactly twice: scenario 5 appends `invalid_config`, and (with no backup on
disk) `restore_files` falls back to `clean_application_properties`. -/
theorem inject5_full_revert_props (content : String) :
    lookupA (c6pipeline (wC6 content)).fs props_file
      = some (String.mk (cleanPropsChars (content.data ++ invalid_config.data))) := rfl

theorem readLinesGo_line (b : List Char) (rest : List Char) (acc : List Char)
    (hb : '\n' ∉ b) :
    readLinesGo acc (b ++ '\n' :: rest)
      = (acc.reverse ++ b ++ ['\n']) :: readLinesGo [] rest := by
  induction b generalizing acc with
  | nil => simp [readLinesGo]
  | cons c b' ih =>
      have hc : ¬ c = '\n' := fun h => hb (h ▸ List.mem_cons_self c b')
      simp only [List.cons_append, readLinesGo]
      rw [if_neg hc]
      simp only [List.append_eq]
      rw [ih (c :: acc) (fun hm => hb (List.mem_cons_of_mem _ hm))]
      simp

theorem pyReadLines_flatten (bs : List (List Char)) (rest : List Char)
    (h : ∀ b ∈ bs, '\n' ∉ b) :
    pyReadLines ((bs.map (fun b => b ++ ['\n'])).flatten ++ rest)
      = bs.map (fun b => b ++ ['\n']) ++ pyReadLines rest := by
  induction bs with
  | nil => simp
  | cons b bs ih =>
      have hstep : ((b ++ ['\n']) :: bs.map (fun b => b ++ ['\n'])).flatten ++ rest
          = b ++ '\n' :: ((bs.map (fun b => b ++ ['\n'])).flatten ++ rest) := by
        simp
      simp only [List.map_cons]
      rw [hstep]
      unfold pyReadLines
      rw [readLinesGo_line _ _ _ (h b (List.mem_cons_self _ _))]
      have ih2 := ih (fun b' hb' => h b' (List.mem_cons_of_mem _ hb'))
      unfold pyReadLines at ih2
      rw [ih2]
      simp

theorem cleanLines_keep (ls : List (List Char)) (tail : List (List Char))
    (h : ∀ l ∈ ls, isSegOf markerChars l = false) :
    cleanLines false (ls ++ tail) = ls ++ cleanLines false tail := by
  induction ls with
  | nil => simp
  | cons l ls ih =>
      simp only [List.cons_append, cleanLines]
      rw [h l (List.mem_cons_self _ _)]
      simp only [Bool.false_eq_true, if_false, Bool.false_and, Bool.not_false, if_true]
      simp only [List.append_eq]
      rw [ih (fun l' hl' => h l' (List.mem_cons_of_mem _ hl'))]

theorem cleanLines_invalid_block :
    cleanLines false (pyReadLines invalid_config.data) = [['\n']] := by
  decide

/-- Cleaning the file produced by appending `invalid_config` to a
newline-terminated, marker-free original removes the marker line and the
five injected lines but keeps the blank line that the block's leading
newline created: the result is the original content plus one `'\n'`. -/
theorem clean_of_append_invalid (bs : List (List Char))
    (hnl : ∀ b ∈ bs, '\n' ∉ b)
    (hmk : ∀ b ∈ bs, isSegOf markerChars (b ++ ['\n']) = false) :
    cleanPropsChars ((bs.map (fun b => b ++ ['\n'])).flatten ++ invalid_config.data)
      = (bs.map (fun b => b ++ ['\n'])).flatten ++ ['\n'] := by
  unfold cleanPropsChars
  rw [pyReadLines_flatten bs invalid_config.data hnl]
  rw [cleanLines_keep _ _ (by
    intro l hl
    obtain ⟨b, hb, rfl⟩ := List.mem_map.mp hl
    exact hmk b hb)]
  rw [cleanLines_invalid_block]
  simp

/-- Claim C6, amended: for every newline-terminated, marker-free original
configuration content `C`, `inject(5)` followed by `revert --full` with no
backup copy of the configuration file present yields `C ++ "\n"` — the
marker line and the five injected lines are removed and every original line
is byte-for-byte unchanged, but the blank line created by the injected
block's leading newline remains, so the file is the original plus exactly
one extra newline. -/
theorem inject5_revert_leaves_one_blank_line (bs : List (List Char))
    (hnl : ∀ b ∈ bs, '\n' ∉ b)
    (hmk : ∀ b ∈ bs, isSegOf markerChars (b ++ ['\n']) = false) :
    lookupA (c6pipeline
        (wC6 (String.mk ((bs.map (fun b => b ++ ['\n'])).flatten)))).fs props_file
      = some (String.mk ((bs.map (fun b => b ++ ['\n'])).flatten ++ ['\n'])) := by
  rw [inject5_full_revert_props]
  have hdata : (String.mk ((bs.map (fun b => b ++ ['\n'])).flatten)).data
      = (bs.map (fun b => b ++ ['\n'])).flatten := rfl
  rw [hdata, clean_of_append_invalid bs hnl hmk]

theorem inject5_revert_leaves_one_blank_line_witness :
    lookupA (c6pipeline
        (wC6 (String.mk (([['a', '=', 'b']].map (fun b => b ++ ['\n'])).flatten)))).fs props_file
      = some (String.mk (([['a', '=', 'b']].map (fun b => b ++ ['\n'])).flatten ++ ['\n'])) :=
  inject5_revert_leaves_one_blank_line [['a', '=', 'b']] (by decide) (by decide)
